import Mathlib

/-!
# Verification of the AAPP level-1 runner dispatch core

Shallow embedding of `bin/aapp_runner.py` (pytroll-aapp-runner): the
job-registry overlap check, the cooldown release (`reset_job_registry`),
the per-message control flow of `AappLvl1Processor.run` (duplicate
suppression, Metop sensor aggregation, command construction), the
result-harvest/move step (`move_lvl1dir`) and the level-1 file packer
(`pack_aapplvl1_files`).

Modelling conventions:
* Python `datetime` values become `Int` (absolute seconds); `timedelta`
  addition becomes integer addition.  Calendar-year extraction
  (`starttime.year`), which only feeds the NOAA command string, is
  abstracted by `yearOf`.
* Python dicts become association lists with first-key lookup
  (`dictLookup`), in-place value overwrite (`dictSet`) and key removal
  (`dictRemove`).
* Filesystem state for the harvest step becomes an association list from
  directory path to the list of file basenames it holds.
* Fallible operations (`list.remove`, dict indexing, `shutil.move`,
  tuple unpacking) return sum types; an uncaught Python exception is an
  explicit `raised`/`error` outcome.
-/

/-! ## Python string helpers -/

/-- Split a character list at every occurrence of `sep`, like Python
`str.split` with a one-character separator. -/
def splitOnChar (sep : Char) : List Char → List (List Char)
  | [] => [[]]
  | c :: rest =>
    if c = sep then [] :: splitOnChar sep rest
    else
      match splitOnChar sep rest with
      | [] => [[c]]
      | h :: t => (c :: h) :: t

/-- Python `s.split(sep)` for a one-character separator. -/
def pySplit1 (s : String) (sep : Char) : List String :=
  (splitOnChar sep s.toList).map (fun l => String.mk l)

/-- `os.path.basename`. -/
def pyBasename (p : String) : String :=
  (pySplit1 p '/').getLastD ""

/-- `os.path.dirname`. -/
def pyDirname (p : String) : String :=
  String.intercalate "/" ((pySplit1 p '/').dropLast)

/-- Index of the first occurrence of `sub` in the character list, or `-1`. -/
def pyFindGo (sub : List Char) : List Char → Int → Int
  | [], i => if sub.isEmpty then i else -1
  | c :: rest, i =>
    if sub.isPrefixOf (c :: rest) then i else pyFindGo sub rest (i + 1)

/-- Python `s.find(sub)`: first index of `sub` in `s`, or `-1`. -/
def pyFind (s sub : String) : Int :=
  pyFindGo sub.toList s.toList 0

/-- The text after the first occurrence of `sep` in `s` (or `none` when
`sep` does not occur).  Models `s.split(sep)[1]` for the satellite-id
strings used by the runner (`metop01`, `metop02`, `metop03`), each of
which contains exactly one occurrence of the separator. -/
def afterFirst (s sep : String) : Option String :=
  let i := pyFind s sep
  if i < 0 then none
  else some (String.mk (s.toList.drop (i.toNat + sep.toList.length)))

/-- Python `s.strip(cs)`: remove leading and trailing characters drawn
from the set `cs`. -/
def pyStripChars (s : String) (cs : List Char) : String :=
  String.mk (((s.toList.dropWhile (fun c => cs.contains c)).reverse.dropWhile
    (fun c => cs.contains c)).reverse)

/-- Python `s[-2:]`. -/
def pySliceLast2 (s : String) : String :=
  String.mk (s.toList.drop (s.toList.length - 2))

/-- Python `s[0:-3]`. -/
def pySliceDropLast3 (s : String) : String :=
  String.mk (s.toList.take (s.toList.length - 3))

/-- Decimal value of a non-empty all-digit character list, else `none`. -/
def pyDigitsToNat (cs : List Char) : Option Nat :=
  if cs ≠ [] ∧ cs.all (fun c => c.isDigit) then
    some (cs.foldl (fun n c => n * 10 + (c.toNat - '0'.toNat)) 0)
  else none

/-- Python `int(s)` on optionally-signed digit strings. -/
def pyInt (s : String) : Option Int :=
  match s.toList with
  | '-' :: rest => (pyDigitsToNat rest).map (fun n => -(n : Int))
  | l => (pyDigitsToNat l).map (fun n => (n : Int))

/-! ## Python dict helpers (association lists) -/

/-- Dict lookup: value at the first binding of `k`. -/
def dictLookup {α : Type} : List (String × α) → String → Option α
  | [], _ => none
  | (k', v) :: rest, k => if k' = k then some v else dictLookup rest k

/-- Python `k in d`. -/
def dictContains {α : Type} (d : List (String × α)) (k : String) : Bool :=
  (dictLookup d k).isSome

/-- Python `d[k] = v`: overwrite in place, or append a new binding. -/
def dictSet {α : Type} : List (String × α) → String → α → List (String × α)
  | [], k, v => [(k, v)]
  | (k', v') :: rest, k, v =>
    if k' = k then (k, v) :: rest else (k', v') :: dictSet rest k v

/-- Python `d.get(k, dflt)`. -/
def dictGetD {α : Type} (d : List (String × α)) (k : String) (dflt : α) : α :=
  (dictLookup d k).getD dflt

/-- Remove the binding of `k` (no-op when absent). -/
def dictRemove {α : Type} : List (String × α) → String → List (String × α)
  | [], _ => []
  | (k', v) :: rest, k => if k' = k then rest else (k', v) :: dictRemove rest k

/-- Python `list.remove(x)`: drop the first occurrence of `x`, or `none`
when `x` is absent (Python raises `ValueError` there). -/
def pyListRemove {α : Type} [DecidableEq α] : List α → α → Option (List α)
  | [], _ => none
  | y :: ys, x => if y = x then some ys else (pyListRemove ys x).map (fun l => y :: l)

/-! ## Static tables of the runner (module-level constants) -/

def SUPPORTED_NOAA_SATELLITES : List String :=
  ["NOAA-19", "NOAA-18", "NOAA-16", "NOAA-15"]

def SUPPORTED_METOP_SATELLITES : List String :=
  ["Metop-B", "Metop-A", "Metop-C"]

def SATELLITE_NAME : List (String × String) :=
  [("NOAA-19", "noaa19"), ("NOAA-18", "noaa18"), ("NOAA-15", "noaa15"),
   ("Metop-A", "metop02"), ("Metop-B", "metop01"), ("Metop-C", "metop03")]

def METOP_SENSOR : List (String × String) :=
  [("amsu-a", "amsua"), ("avhrr/3", "avhrr"), ("amsu-b", "amsub"), ("hirs/4", "hirs")]

def METOP_NUMBER : List (String × String) :=
  [("b", "01"), ("a", "02")]

/-- Calendar year of an absolute time, abstracting `datetime.year`; it
only feeds the NOAA command string and no claim constrains it. -/
def yearOf (t : Int) : Int :=
  1970 + t / 31536000

/-! ## Job registry -/

/-- A job registry: satellite id ↦ locked `(start, end)` intervals. -/
abbrev Registry := List (String × List (Int × Int))

/-- Embedding of `overlapping_timeinterval` (aapp_runner.py lines
141-151): scan `timelist` in order and return the first `(tstart, tend)`
such that `starttime` or `endtime` lies strictly between `tstart` and
`tend`; `none` models the Python `False`. -/
def overlapping_timeinterval (start_end_times : Int × Int)
    (timelist : List (Int × Int)) : Option (Int × Int) :=
  match timelist with
  | [] => none
  | (tstart, tend) :: rest =>
    if (start_end_times.1 > tstart ∧ start_end_times.1 < tend) ∨
       (start_end_times.2 > tstart ∧ start_end_times.2 < tend) then
      some (tstart, tend)
    else overlapping_timeinterval start_end_times rest

/-- Outcome of `reset_job_registry`. -/
inductive ResetOutcome where
  | removed (reg : Registry)
  | warned
  | valueError
deriving DecidableEq, Repr

/-- Embedding of `reset_job_registry` (lines 154-170): when the key is
present with a non-empty interval list, `objdict[key].remove(...)` drops
the first matching interval — and raises `ValueError` when no interval
matches; otherwise the function logs a warning and leaves the registry
unchanged. -/
def reset_job_registry (objdict : Registry) (key : String)
    (start_end_times : Int × Int) : ResetOutcome :=
  match dictLookup objdict key with
  | some l =>
    if l.length > 0 then
      match pyListRemove l start_end_times with
      | some l2 => ResetOutcome.removed (dictSet objdict key l2)
      | none => ResetOutcome.valueError
    else ResetOutcome.warned
  | none => ResetOutcome.warned

/-! ## Processor state and messages -/

/-- Python value of `self.orbit`: the field holds a string in the fresh
state (`'00000'`), an int after a message with `orbit_number`, `None`
when that field is absent, and a string again after extraction from a
sub-directory name. -/
inductive Orbit where
  | onone
  | oint (n : Int)
  | ostr (s : String)
deriving DecidableEq, Repr

/-- Scene key ↦ collected `(level-0 path, sensor)` pairs
(`self.level0files`). -/
abbrev Level0Files := List (String × List (String × String))

/-- State of `AappLvl1Processor` (the fields touched by `run`,
`initialise` and the harvest step).  `lvl1_home`, `fullswath` and
`ishmf` come from `__init__` and survive `initialise`. -/
structure AappLvl1Processor where
  lvl1_home : String
  fullswath : Bool
  ishmf : Bool
  working_dir : Option String
  level0_filename : Option String
  starttime : Option Int
  endtime : Option Int
  satid : String
  satellite : String
  platform : String
  satnum : String
  orbit : Orbit
  result_files : List String
  level0files : Level0Files
  job_register : Registry
deriving DecidableEq, Repr

/-- Embedding of `AappLvl1Processor.initialise` (lines 201-213). -/
def initialise (s : AappLvl1Processor) : AappLvl1Processor :=
  { s with
    working_dir := none
    level0_filename := none
    starttime := none
    endtime := none
    satid := "Unknown"
    satellite := "Unknown"
    platform := "Unknown"
    satnum := "0"
    orbit := Orbit.ostr "00000"
    result_files := []
    level0files := [] }

/-- The state `__init__` (lines 180-199) builds: field defaults followed
by `initialise`; the job register starts empty. -/
def AappLvl1Processor.fresh (lvl1_home : String) : AappLvl1Processor :=
  initialise
    { lvl1_home := lvl1_home
      fullswath := true
      ishmf := false
      working_dir := none
      level0_filename := none
      starttime := none
      endtime := none
      satid := "Unknown"
      satellite := "Unknown"
      platform := "Unknown"
      satnum := "0"
      orbit := Orbit.ostr "00000"
      result_files := []
      level0files := []
      job_register := [] }

/-- A posttroll file message as `run` reads it.  `platform_name`,
`end_time` and `orbit_number` are optional: `none` models the key being
absent from `msg.data`.  The URI is carried pre-parsed (`urlparse` is an
external library; `run` only reads `netloc` and `path`). -/
structure Msg where
  mtype : String
  platform_name : Option String
  sensor : String
  uri_netloc : String
  uri_path : String
  start_time : Int
  end_time : Option Int
  orbit_number : Option Int
deriving DecidableEq, Repr

/-- Runtime configuration drawn from `aapp_config.cfg` and the
environment (module-level constants `SERVERNAME`, `AAPP_OUT_DIR`,
`METOP_IN_DIR`, `AAPP_BIN_HOME`). -/
structure Config where
  servername : String
  aapp_out_dir : String
  metop_in_dir : String
  aapp_bin_home : String
deriving DecidableEq, Repr

def noaa_run_script (cfg : Config) : String :=
  cfg.aapp_bin_home ++ "/smhi/AAPP_RUN_NOAA_WITH_ANA"

def metop_run_script (cfg : Config) : String :=
  cfg.aapp_bin_home ++ "/smhi/AAPP_RUN_METOP_SMHI"

/-- External effects one `run` call consumes: the fresh temp directory
`tempfile.mkdtemp` would return, and the file list
`get_aapp_lvl1_files` would glob from the working directory. -/
structure RunEnv where
  fresh_workdir : String
  harvest : List String
deriving DecidableEq, Repr

/-- Result of one `run` call.  `skip` is `return True` (message ignored
or suppressed); `completed cmd key iv` is the dispatch path: the shell
command `cmd` was launched, its streams drained, a 10-minute cooldown
timer was armed binding `reset_job_registry` to `(key, iv)`, and `run`
returned `False`; `raised` is an uncaught Python exception. -/
inductive RunOutcome where
  | skip
  | completed (cmd : String) (cooldownKey : String) (cooldownInterval : Int × Int)
  | raised (err : String)
deriving DecidableEq, Repr

/-- Lines 305-310: `end_time`, defaulting to `start_time + 14` minutes
when the key is absent. -/
def resolve_endtime (m : Msg) : Int :=
  match m.end_time with
  | some e => e
  | none => m.start_time + 60 * 14

/-- Lines 311-315: `orbit_number` as an int, or `None` when absent. -/
def resolve_orbit (m : Msg) : Orbit :=
  match m.orbit_number with
  | some n => Orbit.oint n
  | none => Orbit.onone

/-- The sensor set accepted by the Metop aggregation gate (line 357). -/
def metop_allowed_sensors : List String :=
  ["avhrr", "amsua", "amsub", "mhs", "hirs"]

/-- The sensor roles the Metop dispatch validates against (line 430). -/
def metop_required_sensors : List String :=
  ["avhrr", "amsua", "hirs", "mhs"]

/-- Result of the Metop sensor-aggregation gate. -/
inductive GateResult where
  | notRequired
  | notReady (files : Level0Files)
  | ready (files : Level0Files) (pairs : List (String × String))
deriving DecidableEq, Repr

/-- Embedding of the Metop aggregation gate (lines 354-376): translate
the sensor name through `METOP_SENSOR`; reject sensors outside the
recognised set; append the `(path, sensor)` pair unless already present;
the scene is ready once the list holds at least 4 pairs. -/
def metopGate (level0files : Level0Files) (keyname : String)
    (level0_filename : String) (rawSensor : String) : GateResult :=
  let sensor := dictGetD METOP_SENSOR rawSensor rawSensor
  if metop_allowed_sensors.contains sensor then
    let cur := (dictLookup level0files keyname).getD []
    let item := (level0_filename, sensor)
    let newlist := if cur.contains item then cur else cur ++ [item]
    let files := dictSet level0files keyname newlist
    if newlist.length < 4 then GateResult.notReady files
    else GateResult.ready files newlist
  else GateResult.notRequired

/-- Lines 426-427: per-sensor basename dict built from the collected
pairs (later pairs overwrite earlier ones with the same sensor). -/
def build_sensor_filename (pairs : List (String × String)) : List (String × String) :=
  pairs.foldl (fun d p => dictSet d p.2 (pyBasename p.1)) []

/-- Lines 429-432: the dispatch-time sensor-name check — `True` when
some collected sensor name is outside the four required roles (the code
then logs an error and returns). -/
def sensor_name_mismatch (sensorFilename : List (String × String)) : Bool :=
  sensorFilename.any (fun p => !(metop_required_sensors.contains p.1))

/-- Lines 405-409 / 435-439: create the register list for the key when
absent, then append the interval. -/
def register_append (reg : Registry) (key : String) (iv : Int × Int) : Registry :=
  dictSet reg key ((dictLookup reg key).getD [] ++ [iv])

/-- Line 411: the NOAA command string. -/
def noaa_cmd (cfg : Config) (year : Int) (level0_filename : String) : String :=
  noaa_run_script cfg ++ " -Y " ++ toString year ++ " " ++ level0_filename

/-- Lines 441-451: the Metop command string; each sensor lookup is a
Python dict index that raises `KeyError` when the role is missing
(`none` here), in the evaluation order of the format arguments. -/
def metop_cmd (cfg : Config) (sensorFilename : List (String × String)) : Option String :=
  match dictLookup sensorFilename "avhrr" with
  | none => none
  | some fa =>
    match dictLookup sensorFilename "amsua" with
    | none => none
    | some fu =>
      match dictLookup sensorFilename "mhs" with
      | none => none
      | some fm =>
        match dictLookup sensorFilename "hirs" with
        | none => none
        | some fh =>
          some (metop_run_script cfg ++ " -d " ++ cfg.metop_in_dir ++
            " -a " ++ fa ++ " -u " ++ fu ++ " -m " ++ fm ++ " -h " ++ fh ++
            " -o " ++ cfg.aapp_out_dir)

/-- Lines 459-518 after the subprocess launch: the stderr/stdout drain
loops and `communicate()` only log, the statistics line goes to an
external sink, the cooldown timer is armed (recorded in the outcome),
and `self.result_files` is set from `get_aapp_lvl1_files`. -/
def finish (env : RunEnv) (s : AappLvl1Processor) (cmd : String)
    (keyname : String) (starttime endtime : Int) :
    AappLvl1Processor × RunOutcome :=
  ({ s with result_files := env.harvest },
   RunOutcome.completed cmd keyname (starttime, endtime))

/-- Embedding of lines 378-518: working-directory creation, the
(redundant) platform re-check, the NOAA and Metop dispatch branches with
their register appends and command construction. -/
def dispatch (cfg : Config) (env : RunEnv) (s : AappLvl1Processor)
    (pname keyname keyname2 : String) (starttime endtime year : Int)
    (level0_filename : String) : AappLvl1Processor × RunOutcome :=
  let s4 := if s.working_dir.isNone then
      { s with working_dir := some env.fresh_workdir } else s
  if ¬ (SUPPORTED_NOAA_SATELLITES.contains pname ∨
        SUPPORTED_METOP_SATELLITES.contains pname) then
    (s4, RunOutcome.skip)
  else if SUPPORTED_NOAA_SATELLITES.contains pname then
    let s5 := { s4 with
      job_register := register_append s4.job_register keyname (starttime, endtime) }
    finish env s5 (noaa_cmd cfg year level0_filename) keyname starttime endtime
  else if SUPPORTED_METOP_SATELLITES.contains pname then
    let pairs := (dictLookup s4.level0files keyname2).getD []
    let sensorFilename := build_sensor_filename pairs
    if sensor_name_mismatch sensorFilename then
      (s4, RunOutcome.skip)
    else
      let s5 := { s4 with
        job_register := register_append s4.job_register keyname (starttime, endtime) }
      match metop_cmd cfg sensorFilename with
      | some cmd => finish env s5 cmd keyname starttime endtime
      | none => (s5, RunOutcome.raised "KeyError")
  else
    (s4, RunOutcome.raised "NameError")

/-- Embedding of `AappLvl1Processor.run` (lines 269-518).  Returns the
updated processor state and the call's outcome.  The early `return
True` guards: non-file messages, a missing `platform_name` key (the
`except` at line 285), unsupported platforms, a foreign server, a
still-locked overlapping scene, a non-required Metop sensor, and an
incomplete Metop scene. -/
def run (cfg : Config) (env : RunEnv) (s : AappLvl1Processor)
    (msg : Option Msg) : AappLvl1Processor × RunOutcome :=
  match msg with
  | none => (s, RunOutcome.skip)
  | some m =>
    if m.mtype ≠ "file" then (s, RunOutcome.skip)
    else
      match m.platform_name with
      | none => (s, RunOutcome.skip)
      | some pname =>
        if ¬ (SUPPORTED_NOAA_SATELLITES.contains pname ∨
              SUPPORTED_METOP_SATELLITES.contains pname) then
          (s, RunOutcome.skip)
        else if m.uri_netloc ≠ cfg.servername then (s, RunOutcome.skip)
        else
          let starttime := m.start_time
          let endtime := resolve_endtime m
          let satid := dictGetD SATELLITE_NAME pname "unknown"
          let s1 := { s with
            starttime := some starttime
            endtime := some endtime
            orbit := resolve_orbit m
            satellite := pname
            satid := satid }
          let pS : Option (String × String) :=
            if SUPPORTED_METOP_SATELLITES.contains pname then
              match afterFirst satid "metop" with
              | some metop_id => some ("metop", dictGetD METOP_NUMBER metop_id metop_id)
              | none => none
            else some ("noaa", pyStripChars satid ['n', 'o', 'a'])
          match pS with
          | none => (s1, RunOutcome.raised "IndexError")
          | some (platform, satnum) =>
            let s2 := { s1 with platform := platform, satnum := satnum }
            let year := yearOf starttime
            let keyname := satid
            let locked := (dictLookup s2.job_register keyname).getD []
            if dictContains s2.job_register keyname ∧ locked.length > 0 ∧
               (overlapping_timeinterval (starttime, endtime) locked).isSome then
              (s2, RunOutcome.skip)
            else
              let keyname2 := satid ++ "_" ++ toString starttime ++ "_" ++ toString endtime
              let level0_filename := m.uri_path
              let fname := pyBasename level0_filename
              let s3 := { s2 with
                level0_filename := some level0_filename
                ishmf := if pyFind fname ".hmf" > 0 then true else s2.ishmf }
              if platform = "metop" then
                match metopGate s3.level0files keyname2 level0_filename m.sensor with
                | GateResult.notRequired => (s3, RunOutcome.skip)
                | GateResult.notReady files =>
                  ({ s3 with level0files := files }, RunOutcome.skip)
                | GateResult.ready files _ =>
                  dispatch cfg env { s3 with level0files := files } pname keyname
                    keyname2 starttime endtime year level0_filename
              else
                dispatch cfg env s3 pname keyname keyname2 starttime endtime year
                  level0_filename

/-! ## Result harvest: `move_lvl1dir` and `pack_aapplvl1_files` -/

/-- A `(sensor, level)` classification, mirroring the per-file dicts
`{'level': ..., 'sensor': ...}` the harvest functions return. -/
structure SensorLevel where
  sensor : String
  level : String
deriving DecidableEq, Repr

/-- Lines 254-263: classify a harvested file by the part of its basename
before the first underscore; `hrpt` is special-cased, every other prefix
is classified by string slicing (`mstr[-2:]` as level, `mstr[0:-3]` as
sensor). -/
def classify_lvl1_filename (fname : String) : SensorLevel :=
  let mstr := (pySplit1 (pyBasename fname) '_').headD ""
  if mstr = "hrpt" then { sensor := "avhrr/3", level := "1b" }
  else { sensor := pySliceDropLast3 mstr, level := pySliceLast2 mstr }

/-- Filesystem abstraction for the move step: directory path ↦ basenames
of the files inside. -/
abbrev FS := List (String × List String)

/-- Result of Python 2 `shutil.move(src, dstHome)` for a directory moved
into the existing directory `dstHome`: when `dstHome/basename(src)`
already exists, `shutil` raises `shutil.Error` (checked before `src` is
touched); a missing source raises a different, uncaught exception. -/
inductive MoveDirResult where
  | moved (fs : FS)
  | destExists
  | srcMissing
deriving DecidableEq, Repr

def shutil_move_dir (fs : FS) (src : String) (dstHome : String) : MoveDirResult :=
  let real_dst := dstHome ++ "/" ++ pyBasename src
  if (dictLookup fs real_dst).isSome then MoveDirResult.destExists
  else
    match dictLookup fs src with
    | some files => MoveDirResult.moved (dictSet (dictRemove fs src) real_dst files)
    | none => MoveDirResult.srcMissing

/-- Return value of `move_lvl1dir`: the filesystem after the move, the
possibly-updated orbit field, the classification dict keyed by the
relocated paths, and whether the move was skipped with the
"Directory already exists" warning. -/
structure MoveLvl1Result where
  fs : FS
  orbit : Orbit
  retv : List (String × SensorLevel)
  movedSkippedWarning : Bool
deriving DecidableEq, Repr

/-- Lines 244-267 of `move_lvl1dir`, after the `shutil.move` attempt:
orbit extraction from the sub-directory name when the field still holds
`'00000'` or `None` (the 4-way tuple unpacking raises `ValueError` on
any other shape), then the glob over the destination directory and the
per-file classification. -/
def move_lvl1dir_rest (fs : FS) (lvl1_home subd : String) (orbit : Orbit)
    (warned : Bool) : Except String MoveLvl1Result :=
  let orbitStep : Except String Orbit :=
    if orbit = Orbit.ostr "00000" ∨ orbit = Orbit.onone then
      match pySplit1 subd '_' with
      | [_, _, _, orb] => Except.ok (Orbit.ostr orb)
      | _ => Except.error "ValueError"
    else Except.ok orbit
  match orbitStep with
  | Except.error e => Except.error e
  | Except.ok orbit2 =>
    let files := (dictLookup fs (lvl1_home ++ "/" ++ subd)).getD []
    let retv := files.map (fun fn =>
      (lvl1_home ++ "/" ++ subd ++ "/" ++ fn, classify_lvl1_filename fn))
    Except.ok { fs := fs, orbit := orbit2, retv := retv, movedSkippedWarning := warned }

/-- Embedding of `AappLvl1Processor.move_lvl1dir` (lines 230-267): with
no result files, return the empty dict; otherwise move the directory of
the first result file under `lvl1_home`, catching only `shutil.Error`
("directory already exists", warning), then classify the destination
directory's contents. -/
def move_lvl1dir (fs : FS) (lvl1_home : String) (result_files : List String)
    (orbit : Orbit) : Except String MoveLvl1Result :=
  match result_files with
  | [] => Except.ok { fs := fs, orbit := orbit, retv := [], movedSkippedWarning := false }
  | f0 :: _ =>
    let path := pyDirname f0
    let subd := pyBasename path
    match shutil_move_dir fs path lvl1_home with
    | MoveDirResult.srcMissing => Except.error "shutil.move: source missing"
    | MoveDirResult.destExists => move_lvl1dir_rest fs lvl1_home subd orbit true
    | MoveDirResult.moved fs2 => move_lvl1dir_rest fs2 lvl1_home subd orbit false

/-- Line 638: prefix ↦ sensor conversion table of the packer. -/
def name_converter : List (String × String) :=
  [("avhr", "avhrr/3"), ("aman", "amsu-a"), ("hrsn", "hirs/4"),
   ("msun", "msu"), ("hrpt", "hrpt")]

/-- Line 644: prefixes the packer drops. -/
def not_considered : List String := ["dcsn", "msun"]

/-- One iteration of the packer loop (lines 651-683): split the basename
at the dot (`in_name, ext = fname.split('.')` — a `ValueError` unless
there is exactly one dot), skip `not_considered` prefixes, resolve the
sensor (`ambn` by satellite number with `int(satnum)` failures ignored,
`hrpt` fixed, otherwise the table with the raw prefix as fallback), copy
the file under its new name and record `{'sensor': ..., 'level': ...}`. -/
def pack_one (base_dir subdir satnum : String)
    (acc : List (String × SensorLevel)) (aapp_file : String) :
    Except String (List (String × SensorLevel)) :=
  let fname := pyBasename aapp_file
  match pySplit1 fname '.' with
  | [in_name, ext] =>
    if not_considered.contains in_name then Except.ok acc
    else
      let step : String × SensorLevel :=
        if in_name = "ambn" then
          let instr :=
            match pyInt satnum with
            | some nv => if nv ≤ 17 then "amsub" else "mhs"
            | none => "mhs"
          (instr ++ ext, { sensor := instr, level := pyStripChars ext ['l'] })
        else if in_name = "hrpt" then
          ("hrpt", { sensor := "avhrr/3", level := "1b" })
        else
          let instr := dictGetD name_converter in_name in_name
          (instr ++ ext, { sensor := instr, level := pyStripChars ext ['l'] })
      let newfilename := base_dir ++ "/" ++ subdir ++ "/" ++ step.1 ++ "_" ++
        subdir ++ "." ++ ext
      Except.ok (dictSet acc newfilename step.2)
  | _ => Except.error "ValueError"

/-- Embedding of `pack_aapplvl1_files` (lines 626-684): fold the packer
loop over the harvested files, building the `sensor_and_level` dict
(the `shutil.copy` filesystem effect and `os.mkdir` are external to the
classification this models). -/
def pack_aapplvl1_files (aappfiles : List String)
    (base_dir subdir satnum : String) :
    Except String (List (String × SensorLevel)) :=
  aappfiles.foldlM (pack_one base_dir subdir satnum) []

instance {ε α : Type} [DecidableEq ε] [DecidableEq α] : DecidableEq (Except ε α) :=
  fun x y =>
    match x, y with
    | Except.error e, Except.error f =>
      if h : e = f then isTrue (congrArg Except.error h)
      else isFalse (fun hc => h (Except.error.inj hc))
    | Except.ok a, Except.ok b =>
      if h : a = b then isTrue (congrArg Except.ok h)
      else isFalse (fun hc => h (Except.ok.inj hc))
    | Except.error _, Except.ok _ => isFalse (fun hc => Except.noConfusion hc)
    | Except.ok _, Except.error _ => isFalse (fun hc => Except.noConfusion hc)

/-! ## Concrete inputs used by witnesses and counterexamples -/

def cfg0 : Config :=
  { servername := "nimbus", aapp_out_dir := "/out",
    metop_in_dir := "/metopin", aapp_bin_home := "" }

def env0 : RunEnv := { fresh_workdir := "/tmp/wrk", harvest := ["/tmp/wrk/hrpt.l1b"] }

def msg0 : Msg :=
  { mtype := "file", platform_name := some "NOAA-19",
    sensor := "avhrr/3", uri_netloc := "nimbus", uri_path := "/data/x.hmf",
    start_time := 0, end_time := some 840, orbit_number := some 12345 }

/-! ## Helper lemmas -/

theorem dictLookup_dictSet_self {α : Type} (d : List (String × α)) (k : String) (v : α) :
    dictLookup (dictSet d k v) k = some v := by
  induction d with
  | nil => simp [dictSet, dictLookup]
  | cons p rest ih =>
    obtain ⟨k', v'⟩ := p
    by_cases h : k' = k
    · simp [dictSet, dictLookup, h]
    · simp [dictSet, dictLookup, h, ih]

/-- The predicate `overlapping_timeinterval` actually tests: one of the
candidate's endpoints lies strictly inside the stored interval. -/
def strict_interior_overlap (b a : Int × Int) : Prop :=
  (b.1 > a.1 ∧ b.1 < a.2) ∨ (b.2 > a.1 ∧ b.2 < a.2)

instance (b a : Int × Int) : Decidable (strict_interior_overlap b a) := by
  unfold strict_interior_overlap; infer_instance

theorem overlapping_timeinterval_eq_none_iff (b : Int × Int) (l : List (Int × Int)) :
    overlapping_timeinterval b l = none ↔ ∀ a ∈ l, ¬ strict_interior_overlap b a := by
  induction l with
  | nil => simp [overlapping_timeinterval]
  | cons a rest ih =>
    obtain ⟨ta, te⟩ := a
    by_cases h : (b.1 > ta ∧ b.1 < te) ∨ (b.2 > ta ∧ b.2 < te)
    · simp only [overlapping_timeinterval, if_pos h]
      constructor
      · intro hc; cases hc
      · intro hall
        exact absurd h (hall (ta, te) (List.mem_cons_self _ _))
    · simp only [overlapping_timeinterval, if_neg h, ih]
      constructor
      · intro hall x hx
        rcases List.mem_cons.mp hx with h1 | h1
        · subst h1; exact h
        · exact hall x h1
      · intro hall x hx
        exact hall x (List.mem_cons_of_mem _ hx)

theorem overlapping_timeinterval_eq_some (b : Int × Int) (l : List (Int × Int)) :
    ∀ a, overlapping_timeinterval b l = some a →
      strict_interior_overlap b a ∧
      ∃ l₁ l₂, l = l₁ ++ a :: l₂ ∧ ∀ x ∈ l₁, ¬ strict_interior_overlap b x := by
  induction l with
  | nil => intro a h; cases h
  | cons hd rest ih =>
    obtain ⟨ta, te⟩ := hd
    intro a h
    by_cases hc : (b.1 > ta ∧ b.1 < te) ∨ (b.2 > ta ∧ b.2 < te)
    · simp only [overlapping_timeinterval, if_pos hc] at h
      cases h
      exact ⟨hc, [], rest, rfl, by intro x hx; cases hx⟩
    · simp only [overlapping_timeinterval, if_neg hc] at h
      obtain ⟨h1, l₁, l₂, he, hall⟩ := ih a h
      refine ⟨h1, (ta, te) :: l₁, l₂, by rw [he]; rfl, ?_⟩
      intro x hx
      rcases List.mem_cons.mp hx with h2 | h2
      · subst h2; exact hc
      · exact hall x h2

theorem overlapping_timeinterval_isSome_of_mem (b : Int × Int) (l : List (Int × Int))
    (a : Int × Int) (ha : a ∈ l) (h : strict_interior_overlap b a) :
    (overlapping_timeinterval b l).isSome = true := by
  rcases ho : overlapping_timeinterval b l with _ | x
  · exact absurd h ((overlapping_timeinterval_eq_none_iff b l).mp ho a ha)
  · rfl

theorem pyListRemove_eq_none_iff {α : Type} [DecidableEq α] (l : List α) (x : α) :
    pyListRemove l x = none ↔ x ∉ l := by
  induction l with
  | nil => simp [pyListRemove]
  | cons y ys ih =>
    by_cases h : y = x
    · subst h; simp [pyListRemove]
    · simp only [pyListRemove, if_neg h, Option.map_eq_none', ih, List.mem_cons]
      constructor
      · intro hn hc
        rcases hc with h1 | h1
        · exact h h1.symm
        · exact hn h1
      · intro hn h1
        exact hn (Or.inr h1)

theorem pyListRemove_of_mem {α : Type} [DecidableEq α] (l : List α) (x : α) (hx : x ∈ l) :
    ∃ l₁ l₂, l = l₁ ++ x :: l₂ ∧ x ∉ l₁ ∧ pyListRemove l x = some (l₁ ++ l₂) := by
  induction l with
  | nil => cases hx
  | cons y ys ih =>
    by_cases h : y = x
    · subst h
      exact ⟨[], ys, rfl, by simp, by simp [pyListRemove]⟩
    · have hx' : x ∈ ys := by
        rcases List.mem_cons.mp hx with h1 | h1
        · exact absurd h1.symm h
        · exact h1
      obtain ⟨l₁, l₂, he, hn, hr⟩ := ih hx'
      refine ⟨y :: l₁, l₂, by rw [he]; rfl, ?_, by simp [pyListRemove, h, hr]⟩
      intro hc
      rcases List.mem_cons.mp hc with h1 | h1
      · exact h h1.symm
      · exact hn h1

/-! ## C2: the overlap query -/

/-- C2 counterexample: the locked interval `(2, 3)` is strictly
contained in the candidate `(0, 10)` — as open intervals the two overlap
— yet `overlapping_timeinterval` reports no match, because neither
endpoint of the candidate lies strictly inside the locked interval. -/
theorem overlap_query_misses_contained_interval :
    ((0:Int) < 2 ∧ (2:Int) < 3 ∧ (3:Int) < 10) ∧
    overlapping_timeinterval (0, 10) [((2:Int), 3)] = none := by decide

/-- C2 (amended): `overlapping_timeinterval` returns the first locked
interval `A` such that the candidate's start or end lies strictly inside
`A` (so `A` strictly containing the candidate's start or end counts, but
a candidate strictly containing `A`, and exact boundary touches, do
not), and returns no match when no locked interval satisfies that
test. -/
theorem overlap_query_first_strict_interior (b : Int × Int) (l : List (Int × Int)) :
    (overlapping_timeinterval b l = none ↔ ∀ a ∈ l, ¬ strict_interior_overlap b a) ∧
    (∀ a, overlapping_timeinterval b l = some a →
      strict_interior_overlap b a ∧
      ∃ l₁ l₂, l = l₁ ++ a :: l₂ ∧ ∀ x ∈ l₁, ¬ strict_interior_overlap b x) :=
  ⟨overlapping_timeinterval_eq_none_iff b l, overlapping_timeinterval_eq_some b l⟩

theorem overlap_query_first_strict_interior_witness :
    strict_interior_overlap ((0:Int), (10:Int)) ((2:Int), (15:Int)) :=
  ((overlap_query_first_strict_interior ((0:Int), 10) [((2:Int), 15)]).2 (2, 15) (by decide)).1

/-! ## C5: the cooldown release -/

/-- C5 counterexample: the identity key is present with a non-empty
interval list that contains no interval equal to the argument; contrary
to the claim's "non-fatal no-op", `list.remove` raises `ValueError`. -/
theorem reset_job_registry_no_match_raises :
    reset_job_registry [("noaa19", [((0:Int), 840)])] "noaa19" (1, 2) =
      ResetOutcome.valueError := by decide

/-- C5 (amended): when the identity key is absent or its list is empty,
`reset_job_registry` is a warning-logging no-op that leaves the registry
unchanged; when a matching interval exists, exactly the first match is
removed; but when the key's list is non-empty and contains no matching
interval, the call raises `ValueError` (it is not a no-op there). -/
theorem reset_job_registry_cases (reg : Registry) (key : String) (iv : Int × Int) :
    (dictLookup reg key = none → reset_job_registry reg key iv = ResetOutcome.warned) ∧
    (dictLookup reg key = some [] → reset_job_registry reg key iv = ResetOutcome.warned) ∧
    (∀ l, dictLookup reg key = some l → l ≠ [] → iv ∉ l →
      reset_job_registry reg key iv = ResetOutcome.valueError) ∧
    (∀ l, dictLookup reg key = some l → iv ∈ l →
      ∃ l₁ l₂, l = l₁ ++ iv :: l₂ ∧ iv ∉ l₁ ∧
        reset_job_registry reg key iv = ResetOutcome.removed (dictSet reg key (l₁ ++ l₂))) := by
  refine ⟨?_, ?_, ?_, ?_⟩
  · intro h; simp [reset_job_registry, h]
  · intro h; simp [reset_job_registry, h]
  · intro l hl hne hnm
    have hr : pyListRemove l iv = none := (pyListRemove_eq_none_iff l iv).mpr hnm
    have hlen : 0 < l.length := List.length_pos.mpr hne
    simp [reset_job_registry, hl, hr, hlen]
  · intro l hl hm
    obtain ⟨l₁, l₂, he, hn, hr⟩ := pyListRemove_of_mem l iv hm
    have hne : l ≠ [] := by intro hc; rw [hc] at hm; cases hm
    have hlen : 0 < l.length := List.length_pos.mpr hne
    exact ⟨l₁, l₂, he, hn, by simp [reset_job_registry, hl, hr, hlen]⟩

theorem reset_job_registry_cases_witness :
    reset_job_registry [] "noaa19" ((0:Int), 840) = ResetOutcome.warned :=
  (reset_job_registry_cases [] "noaa19" (0, 840)).1 rfl

/-! ## C9: per-pass reset leaves the register alone -/

/-- C9: `initialise` resets the per-pass fields (working directory,
level-0 filename, scene times, satellite identity fields, orbit, result
files, pending level-0 file map) and leaves `job_register` unchanged, so
dedup/cooldown locks survive every per-pass reset. -/
theorem initialise_resets_pass_state_keeps_register (s : AappLvl1Processor) :
    (initialise s).job_register = s.job_register ∧
    (initialise s).working_dir = none ∧
    (initialise s).level0_filename = none ∧
    (initialise s).starttime = none ∧
    (initialise s).endtime = none ∧
    (initialise s).satid = "Unknown" ∧
    (initialise s).satellite = "Unknown" ∧
    (initialise s).platform = "Unknown" ∧
    (initialise s).satnum = "0" ∧
    (initialise s).orbit = Orbit.ostr "00000" ∧
    (initialise s).result_files = [] ∧
    (initialise s).level0files = [] := by
  repeat exact ⟨rfl, by simp [initialise]⟩

/-! ## C7: filename-prefix classification -/

/-- C7 counterexample: the prefix `zzzz` is in neither the conversion
table nor the skip list, yet the packer does not skip the file — it
classifies it, with the raw prefix as the sensor name. -/
theorem unknown_prefix_is_classified_not_skipped :
    dictLookup name_converter "zzzz" = none ∧
    not_considered.contains "zzzz" = false ∧
    pack_aapplvl1_files ["/w/zzzz.l1b"] "/out" "sd" "18" =
      Except.ok [("/out/sd/zzzzl1b_sd.l1b", { sensor := "zzzz", level := "1b" })] := by
  decide

/-- C7 (amended): in `pack_aapplvl1_files` only the fixed skip-list
prefixes (`dcsn`, `msun`) are skipped.  Two literal prefixes are
special-cased before the table: `hrpt` maps to the fixed pair (sensor
`avhrr/3`, level `1b`), and `ambn` maps to sensor `amsub` when
`int(satnum)` parses to a value at most 17 and to `mhs` otherwise
(including an unparsable satnum), with the extension (minus `l`
characters) as level.  A prefix in the conversion table — other than
those special cases — maps table-driven to its sensor with the
extension (minus `l` characters) as level; and any other prefix,
outside the table, the skip list and the special cases, is still
classified — with the raw prefix itself as sensor — rather than
skipped. -/
theorem pack_prefix_classification (f base subd satnum in_name ext : String)
    (hsplit : pySplit1 (pyBasename f) '.' = [in_name, ext]) :
    (not_considered.contains in_name = true →
      pack_aapplvl1_files [f] base subd satnum = Except.ok []) ∧
    (in_name = "hrpt" →
      pack_aapplvl1_files [f] base subd satnum =
        Except.ok [(base ++ "/" ++ subd ++ "/" ++ "hrpt" ++ "_" ++ subd ++ "." ++ ext,
          { sensor := "avhrr/3", level := "1b" })]) ∧
    (∀ nv, in_name = "ambn" → pyInt satnum = some nv → nv ≤ 17 →
      pack_aapplvl1_files [f] base subd satnum =
        Except.ok [(base ++ "/" ++ subd ++ "/" ++ ("amsub" ++ ext) ++ "_" ++ subd ++ "." ++ ext,
          { sensor := "amsub", level := pyStripChars ext ['l'] })]) ∧
    (∀ nv, in_name = "ambn" → pyInt satnum = some nv → 17 < nv →
      pack_aapplvl1_files [f] base subd satnum =
        Except.ok [(base ++ "/" ++ subd ++ "/" ++ ("mhs" ++ ext) ++ "_" ++ subd ++ "." ++ ext,
          { sensor := "mhs", level := pyStripChars ext ['l'] })]) ∧
    (in_name = "ambn" → pyInt satnum = none →
      pack_aapplvl1_files [f] base subd satnum =
        Except.ok [(base ++ "/" ++ subd ++ "/" ++ ("mhs" ++ ext) ++ "_" ++ subd ++ "." ++ ext,
          { sensor := "mhs", level := pyStripChars ext ['l'] })]) ∧
    (∀ conv, not_considered.contains in_name = false → in_name ≠ "ambn" →
      in_name ≠ "hrpt" → dictLookup name_converter in_name = some conv →
      pack_aapplvl1_files [f] base subd satnum =
        Except.ok [(base ++ "/" ++ subd ++ "/" ++ (conv ++ ext) ++ "_" ++ subd ++ "." ++ ext,
          { sensor := conv, level := pyStripChars ext ['l'] })]) ∧
    (not_considered.contains in_name = false → in_name ≠ "ambn" → in_name ≠ "hrpt" →
      dictLookup name_converter in_name = none →
      pack_aapplvl1_files [f] base subd satnum =
        Except.ok [(base ++ "/" ++ subd ++ "/" ++ (in_name ++ ext) ++ "_" ++ subd ++ "." ++ ext,
          { sensor := in_name, level := pyStripChars ext ['l'] })]) := by
  refine ⟨?_, ?_, ?_, ?_, ?_, ?_, ?_⟩
  · intro h
    simp at h
    simp [pack_aapplvl1_files, List.foldlM, pack_one, hsplit, h]
  · intro h
    subst h
    have hns : "hrpt" ∉ not_considered := by decide
    simp [pack_aapplvl1_files, List.foldlM, pack_one, hsplit, hns, dictSet]
  · intro nv h hint hle
    subst h
    have hns : "ambn" ∉ not_considered := by decide
    simp [pack_aapplvl1_files, List.foldlM, pack_one, hsplit, hns, hint, hle, dictSet]
  · intro nv h hint hgt
    subst h
    have hns : "ambn" ∉ not_considered := by decide
    have hnle : ¬ nv ≤ 17 := by omega
    simp [pack_aapplvl1_files, List.foldlM, pack_one, hsplit, hns, hint, hnle, dictSet]
  · intro h hint
    subst h
    have hns : "ambn" ∉ not_considered := by decide
    simp [pack_aapplvl1_files, List.foldlM, pack_one, hsplit, hns, hint, dictSet]
  · intro conv hns hna hnh hconv
    simp at hns
    simp [pack_aapplvl1_files, List.foldlM, pack_one, hsplit, hns, hna, hnh,
      dictGetD, hconv, dictSet]
  · intro hns hna hnh hconv
    simp at hns
    simp [pack_aapplvl1_files, List.foldlM, pack_one, hsplit, hns, hna, hnh,
      dictGetD, hconv, dictSet]

theorem pack_prefix_classification_witness :
    pack_aapplvl1_files ["/w/ambn.l1c"] "/out" "sd" "16" =
      Except.ok [("/out/sd/amsubl1c_sd.l1c", { sensor := "amsub", level := "1c" })] ∧
    pack_aapplvl1_files ["/w/avhr.l1b"] "/out" "sd" "19" =
      Except.ok [("/out/sd/avhrr/3l1b_sd.l1b", { sensor := "avhrr/3", level := "1b" })] :=
  ⟨(pack_prefix_classification "/w/ambn.l1c" "/out" "sd" "16" "ambn" "l1c"
      (by decide)).2.2.1 16 rfl (by decide) (by decide),
   (pack_prefix_classification "/w/avhr.l1b" "/out" "sd" "19" "avhr" "l1b"
      (by decide)).2.2.2.2.2.1 "avhrr/3" (by decide) (by decide) (by decide) (by decide)⟩

/-! ## C8: harvest idempotence -/

/-- C8: when the source directory of the result files exists and the
destination sub-directory under the permanent output root does not, the
move step relocates the directory and classifies its contents; re-running
the step against the now-existing destination sub-directory skips the
move with the "directory already exists" warning, raises no error,
leaves the filesystem unchanged and returns the same classification. -/
theorem move_lvl1dir_idempotent_on_existing_dest
    (fs : FS) (home f0 g0 : String) (rf1tl rf2tl : List String)
    (C : List String) (n : Int)
    (hsrc : dictLookup fs (pyDirname f0) = some C)
    (hdst : dictLookup fs (home ++ "/" ++ pyBasename (pyDirname f0)) = none)
    (hsub : pyBasename (pyDirname g0) = pyBasename (pyDirname f0)) :
    ∀ fs2, fs2 = dictSet (dictRemove fs (pyDirname f0))
        (home ++ "/" ++ pyBasename (pyDirname f0)) C →
    ∀ retv, retv = C.map (fun fn =>
        (home ++ "/" ++ pyBasename (pyDirname f0) ++ "/" ++ fn, classify_lvl1_filename fn)) →
    move_lvl1dir fs home (f0 :: rf1tl) (Orbit.oint n) =
      Except.ok
        { fs := fs2, orbit := Orbit.oint n, retv := retv, movedSkippedWarning := false } ∧
    move_lvl1dir fs2 home (g0 :: rf2tl) (Orbit.oint n) =
      Except.ok
        { fs := fs2, orbit := Orbit.oint n, retv := retv, movedSkippedWarning := true } := by
  intro fs2 hfs2 retv hretv
  have hlook2 : dictLookup fs2 (home ++ "/" ++ pyBasename (pyDirname f0)) = some C := by
    rw [hfs2]; exact dictLookup_dictSet_self _ _ _
  constructor
  · show move_lvl1dir fs home (f0 :: rf1tl) (Orbit.oint n) = _
    simp only [move_lvl1dir, shutil_move_dir, hdst, hsrc, Option.isSome_none,
      Bool.false_eq_true, if_false]
    simp only [move_lvl1dir_rest, ← hfs2, hlook2]
    simp [hretv]
  · show move_lvl1dir fs2 home (g0 :: rf2tl) (Orbit.oint n) = _
    simp only [move_lvl1dir, shutil_move_dir, hsub, hlook2, Option.isSome_some, if_true]
    simp only [move_lvl1dir_rest, hlook2]
    simp [hretv]

theorem move_lvl1dir_idempotent_on_existing_dest_witness :
    move_lvl1dir
      [("/out/noaa18_20140826_1108_47748",
        ["hrpt_noaa18_20140826_1108_47748.l1b", "avhrl1b_noaa18_20140826_1108_47748.l1b"])]
      "/out"
      ["/wrk/noaa18_20140826_1108_47748/hrpt_noaa18_20140826_1108_47748.l1b"]
      (Orbit.oint 47748) =
      Except.ok
        { fs := [("/out/noaa18_20140826_1108_47748",
            ["hrpt_noaa18_20140826_1108_47748.l1b", "avhrl1b_noaa18_20140826_1108_47748.l1b"])]
          orbit := Orbit.oint 47748
          retv := [("/out/noaa18_20140826_1108_47748/hrpt_noaa18_20140826_1108_47748.l1b",
              { sensor := "avhrr/3", level := "1b" }),
            ("/out/noaa18_20140826_1108_47748/avhrl1b_noaa18_20140826_1108_47748.l1b",
              { sensor := "avhr", level := "1b" })]
          movedSkippedWarning := true } := by
  have h := move_lvl1dir_idempotent_on_existing_dest
    [("/wrk/noaa18_20140826_1108_47748",
      ["hrpt_noaa18_20140826_1108_47748.l1b", "avhrl1b_noaa18_20140826_1108_47748.l1b"])]
    "/out"
    "/wrk/noaa18_20140826_1108_47748/hrpt_noaa18_20140826_1108_47748.l1b"
    "/wrk/noaa18_20140826_1108_47748/hrpt_noaa18_20140826_1108_47748.l1b"
    [] []
    ["hrpt_noaa18_20140826_1108_47748.l1b", "avhrl1b_noaa18_20140826_1108_47748.l1b"]
    47748 (by decide) (by decide) rfl
  exact (h _ rfl _ rfl).2

/-! ## Shared facts for the `run` theorems -/

theorem afterFirst_metop01 : afterFirst "metop01" "metop" = some "01" := by decide

theorem afterFirst_metop02 : afterFirst "metop02" "metop" = some "02" := by decide

theorem afterFirst_metop03 : afterFirst "metop03" "metop" = some "03" := by decide

theorem supported_platform_cases (pname : String)
    (hsup : SUPPORTED_NOAA_SATELLITES.contains pname = true ∨
            SUPPORTED_METOP_SATELLITES.contains pname = true) :
    pname = "NOAA-19" ∨ pname = "NOAA-18" ∨ pname = "NOAA-16" ∨ pname = "NOAA-15" ∨
    pname = "Metop-B" ∨ pname = "Metop-A" ∨ pname = "Metop-C" := by
  rcases hsup with h | h <;>
    simp [SUPPORTED_NOAA_SATELLITES, SUPPORTED_METOP_SATELLITES] at h <;> tauto

/-! ## C1: duplicate suppression while the lock is held -/

/-- C1 counterexample: a NOAA-19 pass with window `(0, 840)` is
dispatched and its registry lock is still held (no cooldown has fired),
yet re-delivering the identical notification triggers a second dispatch
and appends the interval a second time: `(0, 840)` ends up twice under
the identity key `noaa19`.  The strict overlap test matches neither
endpoint of an identical window. -/
theorem identical_window_second_dispatch_duplicates_interval :
    (run cfg0 env0
        (initialise (run cfg0 env0 (AappLvl1Processor.fresh "/out") (some msg0)).1)
        (some msg0)).2 =
      RunOutcome.completed "/smhi/AAPP_RUN_NOAA_WITH_ANA -Y 1970 /data/x.hmf"
        "noaa19" (0, 840) ∧
    dictLookup
        (run cfg0 env0
          (initialise (run cfg0 env0 (AappLvl1Processor.fresh "/out") (some msg0)).1)
          (some msg0)).1.job_register "noaa19" =
      some [(0, 840), (0, 840)] := by decide

/-- C1 (amended): while an interval `(s1, e1)` for identity `K` is in
the job register, a second notification for `K` whose start or end lies
strictly inside a locked interval is suppressed: `run` returns the skip
outcome, dispatches nothing, and leaves both the job register and the
pending level-0 file map unchanged.  (The identical window, exact
boundary touches, and a window strictly containing the locked one are
not suppressed — see the counterexample.) -/
theorem strict_interior_second_notification_suppressed
    (cfg : Config) (env : RunEnv) (s : AappLvl1Processor)
    (pname rawSensor upath : String) (st et : Int) (oOrb : Option Int)
    (l : List (Int × Int)) (a : Int × Int)
    (hsup : SUPPORTED_NOAA_SATELLITES.contains pname = true ∨
            SUPPORTED_METOP_SATELLITES.contains pname = true)
    (hreg : dictLookup s.job_register (dictGetD SATELLITE_NAME pname "unknown") = some l)
    (ha : a ∈ l) (hov : strict_interior_overlap (st, et) a) :
    (run cfg env s (some
      { mtype := "file", platform_name := some pname, sensor := rawSensor,
        uri_netloc := cfg.servername, uri_path := upath, start_time := st,
        end_time := some et, orbit_number := oOrb })).2 = RunOutcome.skip ∧
    (run cfg env s (some
      { mtype := "file", platform_name := some pname, sensor := rawSensor,
        uri_netloc := cfg.servername, uri_path := upath, start_time := st,
        end_time := some et, orbit_number := oOrb })).1.job_register = s.job_register ∧
    (run cfg env s (some
      { mtype := "file", platform_name := some pname, sensor := rawSensor,
        uri_netloc := cfg.servername, uri_path := upath, start_time := st,
        end_time := some et, orbit_number := oOrb })).1.level0files = s.level0files := by
  have hne : l ≠ [] := by intro hc; rw [hc] at ha; cases ha
  have hlen : 0 < l.length := List.length_pos.mpr hne
  have hov2 := overlapping_timeinterval_isSome_of_mem (st, et) l a ha hov
  rcases supported_platform_cases pname hsup with rfl | rfl | rfl | rfl | rfl | rfl | rfl <;>
    (simp [dictGetD, dictLookup, SATELLITE_NAME] at hreg;
     simp only [run];
     simp [SUPPORTED_NOAA_SATELLITES, SUPPORTED_METOP_SATELLITES, SATELLITE_NAME,
       dictLookup, dictGetD, dictContains, resolve_endtime, afterFirst_metop01,
       afterFirst_metop02, afterFirst_metop03, METOP_NUMBER];
     simp [hreg, hlen, hov2])

def sC1 : AappLvl1Processor :=
  { AappLvl1Processor.fresh "/out" with job_register := [("noaa19", [(0, 840)])] }

theorem strict_interior_second_notification_suppressed_witness :
    (run cfg0 env0 sC1 (some
      { mtype := "file", platform_name := some "NOAA-19", sensor := "avhrr/3",
        uri_netloc := cfg0.servername, uri_path := "/data/x.hmf", start_time := 100,
        end_time := some 200, orbit_number := some 1 })).2 = RunOutcome.skip ∧
    (run cfg0 env0 sC1 (some
      { mtype := "file", platform_name := some "NOAA-19", sensor := "avhrr/3",
        uri_netloc := cfg0.servername, uri_path := "/data/x.hmf", start_time := 100,
        end_time := some 200, orbit_number := some 1 })).1.job_register = sC1.job_register ∧
    (run cfg0 env0 sC1 (some
      { mtype := "file", platform_name := some "NOAA-19", sensor := "avhrr/3",
        uri_netloc := cfg0.servername, uri_path := "/data/x.hmf", start_time := 100,
        end_time := some 200, orbit_number := some 1 })).1.level0files = sC1.level0files :=
  strict_interior_second_notification_suppressed cfg0 env0 sC1 "NOAA-19" "avhrr/3"
    "/data/x.hmf" 100 200 (some 1) [(0, 840)] (0, 840)
    (Or.inl (by decide)) (by decide) (by decide) (by decide)

/-! ## C6: defaults for missing message fields -/

set_option maxHeartbeats 1600000 in
/-- C6: for a processed file notification (supported platform, matching
server), a missing `end_time` sets the scene end time to the start time
plus exactly 14 minutes (840 seconds) and a missing `orbit_number` sets
the orbit to none; `run` then continues with these values on every
path. -/
theorem missing_endtime_orbit_defaults
    (cfg : Config) (env : RunEnv) (s : AappLvl1Processor)
    (pname rawSensor upath : String) (st : Int)
    (hsup : SUPPORTED_NOAA_SATELLITES.contains pname = true ∨
            SUPPORTED_METOP_SATELLITES.contains pname = true) :
    (run cfg env s (some
      { mtype := "file", platform_name := some pname, sensor := rawSensor,
        uri_netloc := cfg.servername, uri_path := upath, start_time := st,
        end_time := none, orbit_number := none })).1.endtime = some (st + 60 * 14) ∧
    (run cfg env s (some
      { mtype := "file", platform_name := some pname, sensor := rawSensor,
        uri_netloc := cfg.servername, uri_path := upath, start_time := st,
        end_time := none, orbit_number := none })).1.orbit = Orbit.onone := by
  rcases supported_platform_cases pname hsup with rfl | rfl | rfl | rfl | rfl | rfl | rfl <;>
    (simp only [run];
     simp [SUPPORTED_NOAA_SATELLITES, SUPPORTED_METOP_SATELLITES, SATELLITE_NAME,
       dictLookup, dictGetD, dictContains, resolve_endtime, resolve_orbit,
       afterFirst_metop01, afterFirst_metop02, afterFirst_metop03, METOP_NUMBER];
     repeat' (split <;> try simp [dispatch, finish, metopGate]))

theorem missing_endtime_orbit_defaults_witness :
    (run cfg0 env0 (AappLvl1Processor.fresh "/out") (some
      { mtype := "file", platform_name := some "NOAA-19", sensor := "avhrr/3",
        uri_netloc := cfg0.servername, uri_path := "/data/x.hmf", start_time := 0,
        end_time := none, orbit_number := none })).1.endtime = some (0 + 60 * 14) ∧
    (run cfg0 env0 (AappLvl1Processor.fresh "/out") (some
      { mtype := "file", platform_name := some "NOAA-19", sensor := "avhrr/3",
        uri_netloc := cfg0.servername, uri_path := "/data/x.hmf", start_time := 0,
        end_time := none, orbit_number := none })).1.orbit = Orbit.onone :=
  missing_endtime_orbit_defaults cfg0 env0 (AappLvl1Processor.fresh "/out")
    "NOAA-19" "avhrr/3" "/data/x.hmf" 0 (Or.inl (by decide))

theorem metop_platform_cases (pname : String)
    (hmet : SUPPORTED_METOP_SATELLITES.contains pname = true) :
    pname = "Metop-B" ∨ pname = "Metop-A" ∨ pname = "Metop-C" := by
  simp [SUPPORTED_METOP_SATELLITES] at hmet
  tauto

theorem satid_metopB : dictGetD SATELLITE_NAME "Metop-B" "unknown" = "metop01" := by decide

theorem satid_metopA : dictGetD SATELLITE_NAME "Metop-A" "unknown" = "metop02" := by decide

theorem satid_metopC : dictGetD SATELLITE_NAME "Metop-C" "unknown" = "metop03" := by decide

theorem satnum_metop01 : dictGetD METOP_NUMBER "01" "01" = "01" := by decide

theorem satnum_metop02 : dictGetD METOP_NUMBER "02" "02" = "02" := by decide

theorem satnum_metop03 : dictGetD METOP_NUMBER "03" "03" = "03" := by decide

theorem metop_cmd_eq_none (cfg : Config) (d : List (String × String))
    (h : dictLookup d "avhrr" = none ∨ dictLookup d "amsua" = none ∨
         dictLookup d "mhs" = none ∨ dictLookup d "hirs" = none) :
    metop_cmd cfg d = none := by
  cases h1 : dictLookup d "avhrr" <;> cases h2 : dictLookup d "amsua" <;>
    cases h3 : dictLookup d "mhs" <;> cases h4 : dictLookup d "hirs" <;>
    simp [metop_cmd, h1, h2, h3, h4] <;> rcases h with h | h | h | h <;> simp_all

/-! ## C3: Metop sensor aggregation gate -/

/-- C3: for a Metop platform with no lock held, (1) a message whose
translated sensor is outside the recognised set is rejected: `run`
returns the skip outcome and the pending file map is unchanged; (2) a
`(path, sensor)` pair already collected for the scene key does not grow
the list, and the gate is ready exactly when the (unchanged) list
already holds at least 4 pairs; (3) a new pair extends the list by
exactly one, and the gate is ready exactly when the extended list holds
at least 4 pairs; (4) while the distinct-pair list stays below 4, `run`
returns the skip outcome without dispatching: the file map records the
appended pair and the job register is untouched. -/
theorem metop_sensor_aggregation_gate
    (cfg : Config) (env : RunEnv) (s : AappLvl1Processor)
    (pname rawSensor upath : String) (st et : Int) (oOrb : Option Int)
    (hmet : SUPPORTED_METOP_SATELLITES.contains pname = true)
    (hreg : dictLookup s.job_register (dictGetD SATELLITE_NAME pname "unknown") = none) :
    ((dictGetD METOP_SENSOR rawSensor rawSensor ∉ metop_allowed_sensors →
      (run cfg env s (some
        { mtype := "file", platform_name := some pname, sensor := rawSensor,
          uri_netloc := cfg.servername, uri_path := upath, start_time := st,
          end_time := some et, orbit_number := oOrb })).2 = RunOutcome.skip ∧
      (run cfg env s (some
        { mtype := "file", platform_name := some pname, sensor := rawSensor,
          uri_netloc := cfg.servername, uri_path := upath, start_time := st,
          end_time := some et, orbit_number := oOrb })).1.level0files = s.level0files)) ∧
    (∀ cur, dictLookup s.level0files (dictGetD SATELLITE_NAME pname "unknown" ++ "_" ++
        toString st ++ "_" ++ toString et) = some cur →
      (upath, dictGetD METOP_SENSOR rawSensor rawSensor) ∈ cur →
      dictGetD METOP_SENSOR rawSensor rawSensor ∈ metop_allowed_sensors →
      metopGate s.level0files (dictGetD SATELLITE_NAME pname "unknown" ++ "_" ++
          toString st ++ "_" ++ toString et) upath rawSensor =
        if cur.length < 4 then
          GateResult.notReady (dictSet s.level0files (dictGetD SATELLITE_NAME pname
            "unknown" ++ "_" ++ toString st ++ "_" ++ toString et) cur)
        else
          GateResult.ready (dictSet s.level0files (dictGetD SATELLITE_NAME pname
            "unknown" ++ "_" ++ toString st ++ "_" ++ toString et) cur) cur) ∧
    (∀ cur, dictLookup s.level0files (dictGetD SATELLITE_NAME pname "unknown" ++ "_" ++
        toString st ++ "_" ++ toString et) = some cur →
      (upath, dictGetD METOP_SENSOR rawSensor rawSensor) ∉ cur →
      dictGetD METOP_SENSOR rawSensor rawSensor ∈ metop_allowed_sensors →
      metopGate s.level0files (dictGetD SATELLITE_NAME pname "unknown" ++ "_" ++
          toString st ++ "_" ++ toString et) upath rawSensor =
        if (cur ++ [(upath, dictGetD METOP_SENSOR rawSensor rawSensor)]).length < 4 then
          GateResult.notReady (dictSet s.level0files (dictGetD SATELLITE_NAME pname
            "unknown" ++ "_" ++ toString st ++ "_" ++ toString et)
            (cur ++ [(upath, dictGetD METOP_SENSOR rawSensor rawSensor)]))
        else
          GateResult.ready (dictSet s.level0files (dictGetD SATELLITE_NAME pname
            "unknown" ++ "_" ++ toString st ++ "_" ++ toString et)
            (cur ++ [(upath, dictGetD METOP_SENSOR rawSensor rawSensor)]))
            (cur ++ [(upath, dictGetD METOP_SENSOR rawSensor rawSensor)])) ∧
    (∀ sensor, sensor = dictGetD METOP_SENSOR rawSensor rawSensor →
      ∀ key2, key2 = dictGetD SATELLITE_NAME pname "unknown" ++ "_" ++
        toString st ++ "_" ++ toString et →
      ∀ cur, cur = (dictLookup s.level0files key2).getD [] →
      ∀ newlist, newlist =
        (if cur.contains (upath, sensor) then cur else cur ++ [(upath, sensor)]) →
      metop_allowed_sensors.contains sensor = true →
      newlist.length < 4 →
      (run cfg env s (some
        { mtype := "file", platform_name := some pname, sensor := rawSensor,
          uri_netloc := cfg.servername, uri_path := upath, start_time := st,
          end_time := some et, orbit_number := oOrb })).2 = RunOutcome.skip ∧
      (run cfg env s (some
        { mtype := "file", platform_name := some pname, sensor := rawSensor,
          uri_netloc := cfg.servername, uri_path := upath, start_time := st,
          end_time := some et, orbit_number := oOrb })).1.level0files =
        dictSet s.level0files key2 newlist ∧
      (run cfg env s (some
        { mtype := "file", platform_name := some pname, sensor := rawSensor,
          uri_netloc := cfg.servername, uri_path := upath, start_time := st,
          end_time := some et, orbit_number := oOrb })).1.job_register =
        s.job_register) := by
  refine ⟨?_, ?_, ?_, ?_⟩
  · intro hs
    rcases metop_platform_cases pname hmet with rfl | rfl | rfl <;> (
      simp [satid_metopB, satid_metopA, satid_metopC] at hreg
      simp only [run]
      simp [SUPPORTED_NOAA_SATELLITES, SUPPORTED_METOP_SATELLITES, satid_metopB,
        satid_metopA, satid_metopC, satnum_metop01, satnum_metop02, satnum_metop03,
        dictContains, resolve_endtime, afterFirst_metop01, afterFirst_metop02,
        afterFirst_metop03, hreg]
      simp [metopGate, hs])
  · intro cur hcur hmem hs
    simp [metopGate, hs, hcur, hmem]
  · intro cur hcur hnotmem hs
    simp [metopGate, hs, hcur, hnotmem]
  · intro sensor hsensor key2 hkey2 cur hcur newlist hnew hs hlen
    subst hsensor hkey2 hcur hnew
    rcases metop_platform_cases pname hmet with rfl | rfl | rfl <;> (
      simp [satid_metopB, satid_metopA, satid_metopC] at hreg hlen ⊢
      simp at hs hlen
      simp only [run]
      simp [SUPPORTED_NOAA_SATELLITES, SUPPORTED_METOP_SATELLITES, satid_metopB,
        satid_metopA, satid_metopC, satnum_metop01, satnum_metop02, satnum_metop03,
        dictContains, resolve_endtime, afterFirst_metop01, afterFirst_metop02,
        afterFirst_metop03, hreg]
      simp [metopGate, hs, hlen])

theorem metop_sensor_aggregation_gate_witness :
    (run cfg0 env0 (AappLvl1Processor.fresh "/out") (some
      { mtype := "file", platform_name := some "Metop-B", sensor := "seviri",
        uri_netloc := cfg0.servername, uri_path := "/data/f1", start_time := 0,
        end_time := some 840, orbit_number := some 1 })).2 = RunOutcome.skip ∧
    (run cfg0 env0 (AappLvl1Processor.fresh "/out") (some
      { mtype := "file", platform_name := some "Metop-B", sensor := "seviri",
        uri_netloc := cfg0.servername, uri_path := "/data/f1", start_time := 0,
        end_time := some 840, orbit_number := some 1 })).1.level0files =
      (AappLvl1Processor.fresh "/out").level0files :=
  (metop_sensor_aggregation_gate cfg0 env0 (AappLvl1Processor.fresh "/out")
    "Metop-B" "seviri" "/data/f1" 0 840 (some 1) (by decide) (by decide)).1
    (by decide)

/-! ## C4: missing sensor role at Metop dispatch -/

def keyC4 : String := "metop01_0_840"

def msgC4 : Msg :=
  { mtype := "file", platform_name := some "Metop-B", sensor := "mhs",
    uri_netloc := "nimbus", uri_path := "/data/f4", start_time := 0,
    end_time := some 840, orbit_number := some 1 }

def sC4 : AappLvl1Processor :=
  { AappLvl1Processor.fresh "/out" with
    level0files :=
      [(keyC4, [("/data/f1", "avhrr"), ("/data/f2", "avhrr"), ("/data/f3", "amsua")])] }

/-- C4 counterexample: a Metop-B scene collects the 4 distinct pairs
`avhrr:f1, avhrr:f2, amsua:f3, mhs:f4` — two different avhrr paths — so
the per-sensor filename dict covers only {avhrr, amsua, mhs}: every name
is among the four required roles (the line-430 mismatch check passes),
but `hirs` is missing, and `run` raises `KeyError` out of the control
loop (after appending the interval to the register) instead of
returning. -/
theorem missing_role_keyerror_escapes_run :
    (run cfg0 env0 sC4 (some msgC4)).2 = RunOutcome.raised "KeyError" ∧
    (run cfg0 env0 sC4 (some msgC4)).1.job_register = [("metop01", [(0, 840)])] := by
  decide

/-- C4 (amended): at a Metop dispatch whose collected pairs yield a
per-sensor filename dict with every name among the four required roles
(so the mismatch check passes) but with at least one of `avhrr`,
`amsua`, `mhs`, `hirs` missing, `run` appends the interval to the job
register and then raises `KeyError` (the dict index in the command
construction) — the subprocess is not launched and control does not
return normally; only a dict containing a name outside the four roles is
caught and skipped by the mismatch check. -/
theorem metop_missing_role_raises_keyerror
    (cfg : Config) (env : RunEnv) (s : AappLvl1Processor)
    (pname rawSensor upath : String) (st et : Int) (oOrb : Option Int)
    (cur : List (String × String))
    (hmet : SUPPORTED_METOP_SATELLITES.contains pname = true)
    (hreg : dictLookup s.job_register (dictGetD SATELLITE_NAME pname "unknown") = none)
    (hfiles : dictLookup s.level0files (dictGetD SATELLITE_NAME pname "unknown" ++ "_" ++
      toString st ++ "_" ++ toString et) = some cur)
    (hmem : (upath, dictGetD METOP_SENSOR rawSensor rawSensor) ∈ cur)
    (hs : dictGetD METOP_SENSOR rawSensor rawSensor ∈ metop_allowed_sensors)
    (hlen : 4 ≤ cur.length)
    (hall : sensor_name_mismatch (build_sensor_filename cur) = false)
    (hmiss : dictLookup (build_sensor_filename cur) "avhrr" = none ∨
      dictLookup (build_sensor_filename cur) "amsua" = none ∨
      dictLookup (build_sensor_filename cur) "mhs" = none ∨
      dictLookup (build_sensor_filename cur) "hirs" = none) :
    (run cfg env s (some
      { mtype := "file", platform_name := some pname, sensor := rawSensor,
        uri_netloc := cfg.servername, uri_path := upath, start_time := st,
        end_time := some et, orbit_number := oOrb })).2 =
      RunOutcome.raised "KeyError" ∧
    (run cfg env s (some
      { mtype := "file", platform_name := some pname, sensor := rawSensor,
        uri_netloc := cfg.servername, uri_path := upath, start_time := st,
        end_time := some et, orbit_number := oOrb })).1.job_register =
      register_append s.job_register (dictGetD SATELLITE_NAME pname "unknown")
        (st, et) := by
  have hcmd := metop_cmd_eq_none cfg _ hmiss
  rcases metop_platform_cases pname hmet with rfl | rfl | rfl <;> (
    simp [satid_metopB, satid_metopA, satid_metopC] at hreg hfiles ⊢
    simp only [run]
    simp [SUPPORTED_NOAA_SATELLITES, SUPPORTED_METOP_SATELLITES, satid_metopB,
      satid_metopA, satid_metopC, satnum_metop01, satnum_metop02, satnum_metop03,
      dictContains, resolve_endtime, afterFirst_metop01, afterFirst_metop02,
      afterFirst_metop03, hreg, metopGate, hs, hfiles, hmem]
    rw [if_neg (Nat.not_lt.mpr hlen)]
    simp only [dispatch]
    simp [SUPPORTED_NOAA_SATELLITES, SUPPORTED_METOP_SATELLITES]
    split <;> (
      simp only [dictLookup_dictSet_self, Option.getD_some, hall, hcmd,
        Bool.false_eq_true, if_false]
      simp [finish, register_append, hreg]))

def sC4w : AappLvl1Processor :=
  { AappLvl1Processor.fresh "/out" with
    level0files :=
      [(keyC4, [("/data/f1", "avhrr"), ("/data/f2", "avhrr"),
                ("/data/f3", "amsua"), ("/data/f4", "mhs")])] }

theorem metop_missing_role_raises_keyerror_witness :
    (run cfg0 env0 sC4w (some
      { mtype := "file", platform_name := some "Metop-B", sensor := "mhs",
        uri_netloc := cfg0.servername, uri_path := "/data/f4", start_time := 0,
        end_time := some 840, orbit_number := some 1 })).2 =
      RunOutcome.raised "KeyError" ∧
    (run cfg0 env0 sC4w (some
      { mtype := "file", platform_name := some "Metop-B", sensor := "mhs",
        uri_netloc := cfg0.servername, uri_path := "/data/f4", start_time := 0,
        end_time := some 840, orbit_number := some 1 })).1.job_register =
      register_append sC4w.job_register (dictGetD SATELLITE_NAME "Metop-B" "unknown")
        (0, 840) :=
  metop_missing_role_raises_keyerror cfg0 env0 sC4w "Metop-B" "mhs" "/data/f4"
    0 840 (some 1)
    [("/data/f1", "avhrr"), ("/data/f2", "avhrr"), ("/data/f3", "amsua"), ("/data/f4", "mhs")]
    (by decide) (by decide) (by decide) (by decide) (by decide) (by decide)
    (by decide) (by decide)
